import Mathlib

/-!
Verification of the connection-management subsystem of the
toadman-code-assist VS Code extension (vscode-fs-code-assist fork).

The definitions below are a shallow embedding of
`src/connection-handler.ts` (the ConnectionHandler class), the
supervision logic of `src/extension.ts` (keepCompilerRunning,
keepConnecting, compilerConnector, getCompiler) and the relevant parts
of `utils/stingray-toolchain.ts`.

The StingrayConnection class ("Transport" in the specification) is not
part of the sources; its observable lifecycle is modelled from the
specification (section 4.1): a transport's state is one of
Connecting / Ready / Closed, the state is monotonic per instance
(never reopened), `onConnect` fires at most once, then `onDisconnect`
fires exactly once, and a Closed transport fires no further events.
-/

/-- Lifecycle state of one Transport (StingrayConnection) instance.
Modelled from the spec: "state ∈ \x7bConnecting, Ready, Closed\x7d
(monotonic per instance — never reopened)". `isReady` corresponds to
`status = ready`, `isClosed` to `status = closed`. -/
inductive TStatus
  | connecting
  | ready
  | closed
deriving DecidableEq, Repr

/-- Modelled from the spec: whether a transport in the given state can
still fire any connect/disconnect event.  Per section 4.1 the event
order per instance is connect (at most once) then disconnect (exactly
once), and a Closed transport never fires again; the Multicast
primitive has no replay, so a listener added to a Closed transport is
never invoked. -/
def transportCanFire : TStatus → Bool
  | TStatus.closed => false
  | _ => true

/-- `CompilerConnectionStatus` enum of src/connection-handler.ts. -/
inductive CompilerConnectionStatus
  | Disconnected
  | Connecting
  | Connected
deriving DecidableEq, Repr

/-- `MAX_CONNECTIONS` of src/connection-handler.ts (line 10). -/
def MAX_CONNECTIONS : Nat := 31

/-- `IDENTIFY_TIMEOUT` of src/connection-handler.ts (line 12), in
milliseconds. -/
def IDENTIFY_TIMEOUT : Nat := 5000

/-- One game Transport as stored in the `_game` map of the
ConnectionHandler.  `id` is an allocation counter used to express
instance identity (two transports created at different times have
different ids); `port` and `ip` are the constructor arguments of
`new StingrayConnection(port, ip)`; `status` is the spec-modelled
lifecycle state (a freshly constructed transport begins connecting
immediately, spec section 4.1). -/
structure GTransport where
  id : Nat
  port : Nat
  ip : Option String
  status : TStatus
deriving DecidableEq, Repr

/-- The game-registry part of the ConnectionHandler state: the
port-keyed `_game` map, the allocation counter for fresh transport
instances, and a ghost log of the ports passed to `getGame`, in call
order (used to state how `connectAllGames` fans out). -/
structure GState where
  games : Nat → Option GTransport
  nextId : Nat
  callLog : List Nat

/-- The `new StingrayConnection(port, ip)` + `this._game.set(port,
newGame)` part of `getGame` (src/connection-handler.ts lines 150-170).
The registered connect/disconnect listeners of the new transport are
modelled separately by `gameHandlersRun`. -/
def mkNewGame (s : GState) (port : Nat) (ip : Option String) : GTransport × GState :=
  let t : GTransport := ⟨s.nextId, port, ip, TStatus.connecting⟩
  (t, { s with
          games := fun q => if q = port then some t else s.games q,
          nextId := s.nextId + 1 })

/-- `ConnectionHandler.getGame` (src/connection-handler.ts lines
147-173): return the stored transport for `port` unless it is absent
or Closed, in which case construct, store and return a fresh one.
The ghost `callLog` records the invocation. -/
def getGame (s : GState) (port : Nat) (ip : Option String) : GTransport × GState :=
  let s0 : GState := { s with callLog := s.callLog ++ [port] }
  match s.games port with
  | some g =>
    if g.status = TStatus.closed then
      mkNewGame s0 port ip
    else
      (g, s0)
  | none => mkNewGame s0 port ip

/-- Loop body of `ConnectionHandler.connectAllGames`
(src/connection-handler.ts lines 177-179): `for (let i = 0; i < range;
++i) this.getGame(portStart+i, ip)`. -/
def connectAllGamesAux (portStart : Nat) (ip : Option String) : Nat → Nat → GState → GState
  | _, 0, s => s
  | i, Nat.succ n, s => connectAllGamesAux portStart ip (i + 1) n (getGame s (portStart + i) ip).2

/-- `ConnectionHandler.connectAllGames` (src/connection-handler.ts
lines 175-180): clamp `range` to `MAX_CONNECTIONS` with `Math.min`,
then call `getGame` for each port in the clamped range.  Clamping is
silent: there is no error path. -/
def connectAllGames (s : GState) (portStart range : Nat) (ip : Option String) : GState :=
  connectAllGamesAux portStart ip 0 (min range MAX_CONNECTIONS) s

/-- The list of ports `connectAllGames portStart range` passes to
`getGame`, in order. -/
def connectAllPorts (portStart range : Nat) : List Nat :=
  (List.range (min range MAX_CONNECTIONS)).map (fun i => portStart + i)

/-- Events that a game transport can fire at its registered listeners
(spec section 4.1 ordering: connect at most once, then disconnect). -/
inductive GEvent
  | connect
  | disconnect
deriving DecidableEq, Repr

/-- Observable actions performed by the listeners that `getGame`
registers on a newly created game transport. -/
inductive GAction
  | addOutput
  | sendDebuggerContinue
  | fireConnectionsChanged
deriving DecidableEq, Repr

/-- The two listeners `getGame` registers on a *new* game transport
(src/connection-handler.ts lines 152-167), run over a sequence of
transport events.  The boolean is the captured `connected` flag
(initially false).  On connect: `_addOutputChannel`, then
`sendJSON(\x7btype:lua_debugger, command:continue\x7d)`, then
`onConnectionsChanged.fire()`, then `connected = true`.  On
disconnect: fire `onConnectionsChanged` only if `connected`. -/
def gameHandlersRun : List GEvent → Bool → List GAction
  | [], _ => []
  | GEvent.connect :: rest, _ =>
    GAction.addOutput :: GAction.sendDebuggerContinue :: GAction.fireConnectionsChanged ::
      gameHandlersRun rest true
  | GEvent.disconnect :: rest, connected =>
    (if connected then [GAction.fireConnectionsChanged] else []) ++ gameHandlersRun rest connected

/-- The compiler Transport slot.  `id` is an allocation counter (the
transport constructed by the ConnectionHandler constructor has id 0);
`status` is the spec-modelled lifecycle state. -/
structure CTransport where
  id : Nat
  status : TStatus
deriving DecidableEq, Repr

/-- The compiler-related state of the ConnectionHandler:
* `compiler` — the `_compiler` field;
* `nextId` — allocation counter for fresh compiler transports;
* `status` — the `_compilerConnectionStatus` field;
* `ctorOn` — the transport id carrying the one-shot
  onConnect/onDisconnect listener pair installed by the constructor
  (src/connection-handler.ts lines 65-76); the pair removes itself the
  first time either event fires, so it is `none` afterwards;
* `discHandlersOn` — the transport ids carrying the persistent
  onDidDisconnect listener added on each successful `connectToCompiler`
  (line 130), with multiplicity. -/
structure CState where
  compiler : CTransport
  nextId : Nat
  status : CompilerConnectionStatus
  ctorOn : Option Nat
  discHandlersOn : List Nat
deriving DecidableEq, Repr

/-- `ConnectionHandler._updateCompilerConnectionStatus`
(src/connection-handler.ts lines 200-203): store the new status and
fire `onCompilerConnectionStatusChanged` with it, unconditionally —
there is no equality guard.  The returned list is the sequence of
fired notifications. -/
def updateCompilerConnectionStatus (s : CState) (v : CompilerConnectionStatus) :
    CState × List CompilerConnectionStatus :=
  ({ s with status := v }, [v])

/-- The ConnectionHandler constructor (src/connection-handler.ts lines
57-77): create the compiler transport for port 14032 (spec-modelled:
it begins connecting immediately), set and fire status Connecting, and
install the self-removing one-shot connect/disconnect listener pair. -/
def mkConnectionHandler : CState × List CompilerConnectionStatus :=
  (⟨⟨0, TStatus.connecting⟩, 1, CompilerConnectionStatus.Connecting, some 0, []⟩,
    [CompilerConnectionStatus.Connecting])

/-- `ConnectionHandler.getCompiler` (src/connection-handler.ts lines
139-141): returns `_compiler` as is — in particular it does *not*
replace a Closed transport. -/
def getCompiler (s : CState) : CTransport := s.compiler

/-- The compiler transport fires its connect event (spec-modelled
occurrence; the listener behaviour is from the source): the transport
becomes Ready; if the constructor's one-shot pair is attached to this
transport it removes itself and runs
`_updateCompilerConnectionStatus(Connected)`. -/
def compilerConnectEvent (s : CState) : CState × List CompilerConnectionStatus :=
  if s.ctorOn = some s.compiler.id then
    ({ s with
        compiler := ⟨s.compiler.id, TStatus.ready⟩,
        ctorOn := none,
        status := CompilerConnectionStatus.Connected },
      [CompilerConnectionStatus.Connected])
  else
    ({ s with compiler := ⟨s.compiler.id, TStatus.ready⟩ }, [])

/-- The compiler transport fires its disconnect event: the transport
becomes Closed; the constructor's one-shot pair (if attached to this
transport) removes itself and fires Disconnected, and every persistent
disconnect listener installed by `connectToCompiler` successes on this
transport fires Disconnected.  Each firing runs
`_updateCompilerConnectionStatus(Disconnected)`; if no listener is
attached, no notification fires and the status is left unchanged. -/
def compilerDisconnectEvent (s : CState) : CState × List CompilerConnectionStatus :=
  let m : Nat :=
    (if s.ctorOn = some s.compiler.id then 1 else 0) + s.discHandlersOn.count s.compiler.id
  ({ s with
      compiler := ⟨s.compiler.id, TStatus.closed⟩,
      ctorOn := if s.ctorOn = some s.compiler.id then none else s.ctorOn,
      status := if m = 0 then s.status else CompilerConnectionStatus.Disconnected },
    List.replicate m CompilerConnectionStatus.Disconnected)

/-- The awaited promise inside one `connectToCompiler` iteration
(src/connection-handler.ts lines 91-115).  If the compiler transport
is Ready it resolves immediately with no state change.  Otherwise the
transport is recreated first when it is Closed (`new
StingrayConnection(14032)`), and the promise resolves at the
transport's next connect-or-disconnect event; `envReady` is the
environment's choice of which one fires (true: the transport becomes
Ready, false: it becomes Closed).  Listeners attached to the awaited
transport run when the event fires, before control returns to the
loop: the constructor's one-shot pair (firing Connected or
Disconnected), and on a disconnect any persistent disconnect listeners
on that transport. -/
def compilerAwait (s : CState) (envReady : Bool) : CState × List CompilerConnectionStatus :=
  if s.compiler.status = TStatus.ready then (s, [])
  else
    let t : CTransport :=
      if s.compiler.status = TStatus.closed then ⟨s.nextId, TStatus.connecting⟩ else s.compiler
    let nid : Nat :=
      if s.compiler.status = TStatus.closed then s.nextId + 1 else s.nextId
    let ctorEvs : List CompilerConnectionStatus :=
      if s.ctorOn = some t.id then
        [if envReady then CompilerConnectionStatus.Connected else CompilerConnectionStatus.Disconnected]
      else []
    let discEvs : List CompilerConnectionStatus :=
      if envReady then []
      else List.replicate (s.discHandlersOn.count t.id) CompilerConnectionStatus.Disconnected
    let evs := ctorEvs ++ discEvs
    ({ compiler := ⟨t.id, if envReady then TStatus.ready else TStatus.closed⟩,
       nextId := nid,
       status := (evs.getLast?).getD s.status,
       ctorOn := if s.ctorOn = some t.id then none else s.ctorOn,
       discHandlersOn := s.discHandlersOn },
    evs)

/-- The retry loop of `ConnectionHandler.connectToCompiler`
(src/connection-handler.ts lines 88-124): at each iteration fire
Connecting, await the connect-or-disconnect promise, break when the
compiler transport is Ready, otherwise sleep `delay_between_attempts`
(eventless) and continue.  `i` is the iteration index (used to consult
the environment), the last argument the remaining attempt count. -/
def connectToCompilerLoop (env : Nat → Bool) : Nat → Nat → CState → CState × List CompilerConnectionStatus
  | _, 0, s => (s, [])
  | i, Nat.succ n, s =>
    let p1 := updateCompilerConnectionStatus s CompilerConnectionStatus.Connecting
    let p2 := compilerAwait p1.1 (env i)
    if p2.1.compiler.status = TStatus.ready then
      (p2.1, p1.2 ++ p2.2)
    else
      let p3 := connectToCompilerLoop env (i + 1) n p2.1
      (p3.1, p1.2 ++ p2.2 ++ p3.2)

/-- `ConnectionHandler.connectToCompiler` (src/connection-handler.ts
lines 86-137): run the retry loop, then, when the compiler transport
ended Ready, attach the compiler output channel, fire Connected and
install the persistent disconnect listener (line 130); otherwise fire
Disconnected. -/
def connectToCompiler (s : CState) (env : Nat → Bool) (attempts : Nat) :
    CState × List CompilerConnectionStatus :=
  let p := connectToCompilerLoop env 0 attempts s
  if p.1.compiler.status = TStatus.ready then
    let q := updateCompilerConnectionStatus p.1 CompilerConnectionStatus.Connected
    ({ q.1 with discHandlersOn := q.1.discHandlersOn ++ [q.1.compiler.id] }, p.2 ++ q.2)
  else
    let q := updateCompilerConnectionStatus p.1 CompilerConnectionStatus.Disconnected
    (q.1, p.2 ++ q.2)

/-- Resolution condition of `compilerConnector` (src/extension.ts
lines 93-111): the promise resolves immediately when the compiler
transport is Ready, and otherwise resolves at that transport's next
connect or disconnect event — so it can resolve at all only if the
transport is Ready or can still fire an event. -/
def compilerConnectorResolves (t : CTransport) : Bool :=
  if t.status = TStatus.ready then true else transportCanFire t.status

/-- State of the ConnectionHandler after extension activation when no
compiler is reachable: the constructor's transport to port 14032 is
refused and fires its disconnect event (the one-shot pair publishes
Disconnected and the transport is Closed). -/
def scenarioDeadState : CState := (compilerDisconnectEvent mkConnectionHandler.1).1

/-- State of the ConnectionHandler after the constructor's transport
connects (a compiler was reachable): the one-shot pair publishes
Connected and removes itself. -/
def scenarioConnectedState : CState := (compilerConnectEvent mkConnectionHandler.1).1

/-- Iteration guard of the `keepConnecting` loop of src/extension.ts
(lines 409-427): `while (!closed) \x7b ... await sleep(1000) \x7d`.
`closedFlag i` tells whether the process-wide shutdown flag is set
when the loop guard is checked for the i-th time;
`keepConnectingIterates closedFlag n` says the loop body runs its
n-th iteration (all guard checks up to n saw the flag unset).  The
loop has no other exit: no attempt counter bounds it. -/
def keepConnectingIterates (closedFlag : Nat → Bool) (n : Nat) : Bool :=
  (List.range (n + 1)).all (fun i => !(closedFlag i))

/-- Outcome of one iteration of the spawn-poll loop of
`keepCompilerRunning` (src/extension.ts lines 198-215), as seen by the
loop: the awaited `compilerConnector` resolved with a Ready
connection, or the child process has exited with the given code, or
the child is still starting. -/
inductive PollOutcome
  | ready
  | exited (code : Int)
  | running
deriving DecidableEq, Repr

/-- Iteration count of the spawn-poll loop of `keepCompilerRunning`
(src/extension.ts lines 198-215): `for (let i = 0; i < 20; ++i)`,
breaking when the connection is Ready, or when
`_compilerProcess.exitCode` is truthy (nonzero) — an exit code of 0 is
falsy and is treated like a still-running child. -/
def pollLoopIters (env : Nat → PollOutcome) : Nat → Nat → Nat
  | _, 0 => 0
  | i, Nat.succ n =>
    1 + (match env i with
      | PollOutcome.ready => 0
      | PollOutcome.exited c => if c ≠ 0 then 0 else pollLoopIters env (i + 1) n
      | PollOutcome.running => pollLoopIters env (i + 1) n)

/-- The spawn-poll loop of `keepCompilerRunning` runs at most 20
iterations: its attempt ceiling is the literal 20. -/
def supervisorPollIters (env : Nat → PollOutcome) : Nat := pollLoopIters env 0 20

/-- A JavaScript value as relevant to `identify`: `undefined`, `null`,
or an identify-info payload (abstracted to a number). -/
inductive JsVal
  | undef
  | nullv
  | info (n : Nat)
deriving DecidableEq, Repr

/-- JavaScript truthiness of the values `identify` tests with
`if (info)`. -/
def truthy : JsVal → Bool
  | JsVal.undef => false
  | JsVal.nullv => false
  | JsVal.info _ => true

/-- The `identify`-relevant state for one connection: its entry in the
`_identifyInfo` cache (`none` when the map has no entry), the
listener list of the connection's `onDidReceiveData` multicast
(listeners abstracted to allocation ids), and the allocator for fresh
listener ids. -/
structure IdentifyState where
  cache : Option JsVal
  listeners : List Nat
  nextListener : Nat
deriving DecidableEq, Repr

/-- The non-cached path of `ConnectionHandler.identify`
(src/connection-handler.ts lines 260-279), run to completion for one
response outcome.  `response = some n` means a `stingray_identify`
frame with payload `n` arrived before the 5000 ms timeout
(`IDENTIFY_TIMEOUT`); `response = none` means no response arrived in
time, so the timeout resolves the inner promise with `null`.  Steps,
in source order: add the `onData` listener; the inner promise resolves
with the payload or with null; the `.then` handler stores that value
in `_identifyInfo` (its arrow body returns nothing, so the chained
promise resolves with `undefined`); the `.finally` handler removes the
`onData` listener and clears the timer.  Returned: the value the
returned promise resolves with, the id of the listener the call
registered, and the final state. -/
def runIdentify (s : IdentifyState) (response : Option Nat) :
    JsVal × Option Nat × IdentifyState :=
  let l := s.nextListener
  let withListener := s.listeners ++ [l]
  let inner : JsVal :=
    match response with
    | some n => JsVal.info n
    | none => JsVal.nullv
  (JsVal.undef, some l,
    { cache := some inner,
      listeners := withListener.erase l,
      nextListener := l + 1 })

/-- `ConnectionHandler.identify` (src/connection-handler.ts lines
254-280): return the cached info when the cache holds a truthy value
(`if (info) return info`), otherwise run the handshake. -/
def identify (s : IdentifyState) (response : Option Nat) :
    JsVal × Option Nat × IdentifyState :=
  match s.cache with
  | some v => if truthy v then (v, none, s) else runIdentify s response
  | none => runIdentify s response

/-- Every Connected notification in a fired-status list is preceded by
an earlier Connecting notification. -/
def ConnectedPrecededByConnecting (l : List CompilerConnectionStatus) : Prop :=
  ∀ j, l.get? j = some CompilerConnectionStatus.Connected →
    ∃ k, k < j ∧ l.get? k = some CompilerConnectionStatus.Connecting

/-- A registry state with an empty `_game` map. -/
def emptyGState : GState := ⟨fun _ => none, 0, []⟩

/-- A registry state whose `_game` map holds one Closed transport at
port 7. -/
def sampleClosedGState : GState :=
  ⟨fun q => if q = 7 then some ⟨0, 7, none, TStatus.closed⟩ else none, 1, []⟩

/-- A registry state whose `_game` map holds one Ready transport at
port 9, created with ip "10.0.0.1". -/
def sampleReadyGState : GState :=
  ⟨fun q => if q = 9 then some ⟨0, 9, some "10.0.0.1", TStatus.ready⟩ else none, 1, []⟩

/-! ## Lemmas about the game registry -/

/-- `getGame` leaves its result stored in the map at the queried port. -/
theorem getGame_stores (s : GState) (p : Nat) (ip : Option String) :
    (getGame s p ip).2.games p = some (getGame s p ip).1 := by
  rcases hh : s.games p with _ | g <;> simp only [getGame, hh, mkNewGame]
  · simp
  · by_cases hgc : g.status = TStatus.closed <;> simp [hgc, hh]

/-- When a transport is stored for `p` and it is not Closed, `getGame`
returns it and only appends to the ghost call log. -/
theorem getGame_existing (s : GState) (p : Nat) (ip : Option String) (g : GTransport)
    (hs : s.games p = some g) (hne : ¬ g.status = TStatus.closed) :
    getGame s p ip = (g, { s with callLog := s.callLog ++ [p] }) := by
  simp only [getGame, hs, hne, if_false]

/-- When the transport stored for `p` is Closed, `getGame` replaces it
with a freshly allocated one. -/
theorem getGame_closed (s : GState) (p : Nat) (ip : Option String) (g : GTransport)
    (hs : s.games p = some g) (hc : g.status = TStatus.closed) :
    getGame s p ip =
      (⟨s.nextId, p, ip, TStatus.connecting⟩,
        { games := fun q => if q = p then some ⟨s.nextId, p, ip, TStatus.connecting⟩ else s.games q,
          nextId := s.nextId + 1,
          callLog := s.callLog ++ [p] }) := by
  simp only [getGame, hs, hc, if_true, mkNewGame]

/-- `getGame` never returns a Closed transport. -/
theorem getGame_not_closed (s : GState) (p : Nat) (ip : Option String) :
    ¬ (getGame s p ip).1.status = TStatus.closed := by
  rcases hh : s.games p with _ | g <;> simp only [getGame, hh, mkNewGame]
  · simp
  · by_cases hgc : g.status = TStatus.closed <;> simp [hgc]

/-- `getGame` on an absent or replaced slot does not change the call
log except by appending the port. -/
theorem getGame_callLog (s : GState) (p : Nat) (ip : Option String) :
    (getGame s p ip).2.callLog = s.callLog ++ [p] := by
  rcases hh : s.games p with _ | g <;> simp only [getGame, hh, mkNewGame]
  · by_cases hgc : g.status = TStatus.closed <;> simp [hgc]

/-- Call log of the `connectAllGames` loop: one `getGame` call per
offset, in order. -/
theorem connectAllGamesAux_callLog (portStart : Nat) (ip : Option String) :
    ∀ (n i : Nat) (s : GState),
      (connectAllGamesAux portStart ip i n s).callLog =
        s.callLog ++ (List.range n).map (fun j => portStart + (i + j)) := by
  intro n
  induction n with
  | zero => intro i s; simp [connectAllGamesAux]
  | succ n ih =>
    intro i s
    rw [connectAllGamesAux, ih (i + 1), getGame_callLog, List.range_succ_eq_map]
    simp only [List.map_cons, List.map_map, List.append_assoc, List.singleton_append]
    have hf : ((fun j => portStart + (i + 1 + j)) : Nat → Nat) =
        (fun j => portStart + (i + j)) ∘ Nat.succ := by
      funext j
      simp [Function.comp]
      omega
    rw [hf]
    simp

/-- Helper for C8: with the `connected` flag still false, a run that
never contains a connect event never fires the aggregate
connections-changed event. -/
theorem gameHandlersRun_no_fire :
    ∀ evs : List GEvent, GEvent.connect ∉ evs →
      GAction.fireConnectionsChanged ∉ gameHandlersRun evs false := by
  intro evs h
  induction evs with
  | nil => simp [gameHandlersRun]
  | cons e rest ih =>
    cases e with
    | connect => simp at h
    | disconnect =>
      have hr : GEvent.connect ∉ rest := by
        intro hmem
        exact h (List.mem_cons_of_mem _ hmem)
      simpa [gameHandlersRun] using ih hr

/-! ## Claim theorems: the game registry -/

/-- C4: `connectAllGames portStart count ip` silently clamps `count`
to `MAX_CONNECTIONS = 31` (total function, no error path) and invokes
`getGame` exactly once for each port of the clamped contiguous range
(the ghost call log of the run is exactly `connectAllPorts`, which has
no duplicates, covers exactly the ports `portStart ≤ q <
portStart + min count 31`, and has at most 31 entries); in particular
`connectAllGames s 14000 50 ip` calls `getGame` for ports
14000..14030 only, and from an empty registry it allocates exactly 31
transports. -/
theorem claim_C4_connectAll_clamps (s : GState) (p c : Nat) (ip : Option String) :
    (connectAllGames s p c ip).callLog = s.callLog ++ connectAllPorts p c ∧
    (connectAllPorts p c).length = min c MAX_CONNECTIONS ∧
    (connectAllPorts p c).length ≤ 31 ∧
    (connectAllPorts p c).Nodup ∧
    (∀ q, q ∈ connectAllPorts p c ↔ p ≤ q ∧ q < p + min c MAX_CONNECTIONS) ∧
    connectAllPorts 14000 50 = (List.range 31).map (fun i => 14000 + i) ∧
    (connectAllGames emptyGState 14000 50 none).nextId = 31 := by
  refine ⟨?_, ?_, ?_, ?_, ?_, ?_, ?_⟩
  · rw [connectAllGames, connectAllGamesAux_callLog, connectAllPorts]
    simp
  · simp [connectAllPorts]
  · simp [connectAllPorts, MAX_CONNECTIONS]
  · exact List.Nodup.map (fun a b hab => by omega) (List.nodup_range _)
  · intro q
    simp only [connectAllPorts, List.mem_map, List.mem_range]
    constructor
    · rintro ⟨i, hi, rfl⟩
      omega
    · rintro ⟨h1, h2⟩
      exact ⟨q - p, by omega, by omega⟩
  · decide
  · decide

/-- C6: once the transport stored for a port is Closed, the next
`getGame` for that port allocates, stores and returns a fresh
transport, distinct from the Closed one (fresh ids exceed every id
allocated before, which is the `g.id < s.nextId` hypothesis), and the
new transport starts Connecting; moreover `getGame` never returns a
Closed transport. -/
theorem claim_C6_closed_replaced (s : GState) (p : Nat) (ip : Option String) (g : GTransport)
    (hs : s.games p = some g) (hc : g.status = TStatus.closed) (hid : g.id < s.nextId) :
    (getGame s p ip).1.id = s.nextId ∧
    (getGame s p ip).1 ≠ g ∧
    (getGame s p ip).1.status = TStatus.connecting ∧
    (getGame s p ip).2.games p = some (getGame s p ip).1 ∧
    (∀ (s2 : GState) (p2 : Nat) (ip2 : Option String),
      ¬ (getGame s2 p2 ip2).1.status = TStatus.closed) := by
  rw [getGame_closed s p ip g hs hc]
  refine ⟨rfl, ?_, rfl, by simp, fun s2 p2 ip2 => getGame_not_closed s2 p2 ip2⟩
  intro h
  have : s.nextId = g.id := congrArg GTransport.id h
  omega

/-- C6 witness: concrete instance at `sampleClosedGState`, port 7. -/
theorem claim_C6_closed_replaced_witness :
    (sampleClosedGState.games 7 = some ⟨0, 7, none, TStatus.closed⟩ ∧
      (⟨0, 7, none, TStatus.closed⟩ : GTransport).status = TStatus.closed ∧
      (⟨0, 7, none, TStatus.closed⟩ : GTransport).id < sampleClosedGState.nextId) ∧
    ((getGame sampleClosedGState 7 none).1.id = sampleClosedGState.nextId ∧
      (getGame sampleClosedGState 7 none).1 ≠ ⟨0, 7, none, TStatus.closed⟩ ∧
      (getGame sampleClosedGState 7 none).1.status = TStatus.connecting ∧
      (getGame sampleClosedGState 7 none).2.games 7 = some (getGame sampleClosedGState 7 none).1 ∧
      (∀ (s2 : GState) (p2 : Nat) (ip2 : Option String),
        ¬ (getGame s2 p2 ip2).1.status = TStatus.closed)) :=
  ⟨⟨rfl, rfl, by decide⟩,
    claim_C6_closed_replaced sampleClosedGState 7 none ⟨0, 7, none, TStatus.closed⟩
      rfl rfl (by decide)⟩

/-- C7: a second `getGame` call for the same port, made while the
transport the first call returned is still Connecting, returns the
identical transport and neither stores anything new nor allocates (the
map and the allocation counter are unchanged). -/
theorem claim_C7_connecting_reused (s : GState) (p : Nat) (ip ip2 : Option String)
    (h : (getGame s p ip).1.status = TStatus.connecting) :
    (getGame (getGame s p ip).2 p ip2).1 = (getGame s p ip).1 ∧
    (getGame (getGame s p ip).2 p ip2).2.games = (getGame s p ip).2.games ∧
    (getGame (getGame s p ip).2 p ip2).2.nextId = (getGame s p ip).2.nextId := by
  have hst := getGame_stores s p ip
  have hne : ¬ (getGame s p ip).1.status = TStatus.closed := by
    rw [h]
    decide
  rw [getGame_existing (getGame s p ip).2 p ip2 (getGame s p ip).1 hst hne]
  exact ⟨rfl, rfl, rfl⟩

/-- C7 witness: concrete instance from the empty registry at port 5;
the first call creates a Connecting transport, the second returns it
unchanged. -/
theorem claim_C7_connecting_reused_witness :
    ((getGame emptyGState 5 none).1.status = TStatus.connecting) ∧
    ((getGame (getGame emptyGState 5 none).2 5 (some "ip2")).1 = (getGame emptyGState 5 none).1 ∧
      (getGame (getGame emptyGState 5 none).2 5 (some "ip2")).2.games =
        (getGame emptyGState 5 none).2.games ∧
      (getGame (getGame emptyGState 5 none).2 5 (some "ip2")).2.nextId =
        (getGame emptyGState 5 none).2.nextId) :=
  ⟨by decide, claim_C7_connecting_reused emptyGState 5 none (some "ip2") (by decide)⟩

/-- C9: while a transport for a port exists and is not Closed,
`getGame` with any ip argument — also one different from the ip the
transport was created with — returns the existing transport still
bound to its original ip; the ip argument leaves the stored map and
the allocator untouched, so it influences only transports created by
the call itself. -/
theorem claim_C9_ip_ignored_for_existing (s : GState) (p : Nat) (ip2 : Option String)
    (g : GTransport) (hs : s.games p = some g) (hne : ¬ g.status = TStatus.closed) :
    (getGame s p ip2).1 = g ∧
    (getGame s p ip2).1.ip = g.ip ∧
    (getGame s p ip2).2.games = s.games ∧
    (getGame s p ip2).2.nextId = s.nextId := by
  rw [getGame_existing s p ip2 g hs hne]
  exact ⟨rfl, rfl, rfl, rfl⟩

/-- C9 witness: a Ready transport at port 9 created with ip 10.0.0.1
is returned unchanged by a `getGame` call passing ip 10.0.0.2. -/
theorem claim_C9_ip_ignored_for_existing_witness :
    (sampleReadyGState.games 9 = some ⟨0, 9, some "10.0.0.1", TStatus.ready⟩ ∧
      ¬ (⟨0, 9, some "10.0.0.1", TStatus.ready⟩ : GTransport).status = TStatus.closed) ∧
    ((getGame sampleReadyGState 9 (some "10.0.0.2")).1 = ⟨0, 9, some "10.0.0.1", TStatus.ready⟩ ∧
      (getGame sampleReadyGState 9 (some "10.0.0.2")).1.ip =
        (⟨0, 9, some "10.0.0.1", TStatus.ready⟩ : GTransport).ip ∧
      (getGame sampleReadyGState 9 (some "10.0.0.2")).2.games = sampleReadyGState.games ∧
      (getGame sampleReadyGState 9 (some "10.0.0.2")).2.nextId = sampleReadyGState.nextId) :=
  ⟨⟨rfl, by decide⟩,
    claim_C9_ip_ignored_for_existing sampleReadyGState 9 (some "10.0.0.2")
      ⟨0, 9, some "10.0.0.1", TStatus.ready⟩ rfl (by decide)⟩

/-- C8: the connect listener that `getGame` registers on every newly
created transport performs, in order, the output-channel attachment,
the fixed lua_debugger "continue" send, and only then the aggregate
connections-changed firing; and a transport that disconnects without
ever having connected (its `connected` flag still false) never fires
the aggregate connections-changed event. -/
theorem claim_C8_connect_actions (rest evs : List GEvent) (c : Bool)
    (h : GEvent.connect ∉ evs) :
    gameHandlersRun (GEvent.connect :: rest) c =
      GAction.addOutput :: GAction.sendDebuggerContinue :: GAction.fireConnectionsChanged ::
        gameHandlersRun rest true ∧
    GAction.fireConnectionsChanged ∉ gameHandlersRun evs false :=
  ⟨rfl, gameHandlersRun_no_fire evs h⟩

/-- C8 witness: a lone disconnect event fires nothing; a connect event
sends the continue command before the aggregate event. -/
theorem claim_C8_connect_actions_witness :
    GEvent.connect ∉ [GEvent.disconnect] ∧
    (gameHandlersRun (GEvent.connect :: []) false =
      GAction.addOutput :: GAction.sendDebuggerContinue :: GAction.fireConnectionsChanged ::
        gameHandlersRun [] true ∧
      GAction.fireConnectionsChanged ∉ gameHandlersRun [GEvent.disconnect] false) :=
  ⟨by decide, claim_C8_connect_actions [] [GEvent.disconnect] false (by decide)⟩

/-! ## Lemmas about the compiler status machine -/

/-- The awaited promise of a `connectToCompiler` iteration never fires
a Connecting notification (only the constructor pair or persistent
disconnect listeners run there, and they fire Connected or
Disconnected). -/
theorem compilerAwait_no_Connecting (s : CState) (b : Bool) :
    CompilerConnectionStatus.Connecting ∉ (compilerAwait s b).2 := by
  rw [compilerAwait]
  split
  · simp
  · cases b <;> split_ifs <;> simp_all [List.mem_replicate]

/-- Each executed iteration of the `connectToCompiler` loop starts by
firing Connecting, so a loop run with at least one attempt produces a
Connecting-headed notification list. -/
theorem connectToCompilerLoop_events_cons (env : Nat → Bool) (i n : Nat) (s : CState) :
    ∃ t : List CompilerConnectionStatus,
      (connectToCompilerLoop env i (n + 1) s).2 = CompilerConnectionStatus.Connecting :: t := by
  rw [connectToCompilerLoop]
  split
  · exact ⟨_, rfl⟩
  · exact ⟨_, rfl⟩

/-- A `connectToCompiler` run with at least one attempt produces a
Connecting-headed notification list. -/
theorem connectToCompiler_events_cons (s : CState) (env : Nat → Bool) (n : Nat) :
    ∃ t : List CompilerConnectionStatus,
      (connectToCompiler s env (n + 1)).2 = CompilerConnectionStatus.Connecting :: t := by
  obtain ⟨t, ht⟩ := connectToCompilerLoop_events_cons env 0 n s
  simp only [connectToCompiler, updateCompilerConnectionStatus]
  split <;> rw [ht] <;> exact ⟨_, rfl⟩

/-- In a Connecting-headed list every Connected entry is preceded by a
Connecting entry. -/
theorem connectedPreceded_cons (t : List CompilerConnectionStatus) :
    ConnectedPrecededByConnecting (CompilerConnectionStatus.Connecting :: t) := by
  intro j hj
  cases j with
  | zero => simp at hj
  | succ j => exact ⟨0, Nat.succ_pos j, rfl⟩

/-- When a `connectToCompiler` run ends with a Ready compiler
transport, the run took the success branch: it appended a persistent
disconnect listener for the current compiler transport. -/
theorem connectToCompiler_ready_disc (s : CState) (env : Nat → Bool) (a : Nat)
    (h : (connectToCompiler s env a).1.compiler.status = TStatus.ready) :
    (connectToCompiler s env a).1.discHandlersOn =
      (connectToCompilerLoop env 0 a s).1.discHandlersOn ++
        [(connectToCompiler s env a).1.compiler.id] := by
  by_cases hb : (connectToCompilerLoop env 0 a s).1.compiler.status = TStatus.ready
  · simp [connectToCompiler, updateCompilerConnectionStatus, hb]
  · simp [connectToCompiler, updateCompilerConnectionStatus, hb] at h

/-! ## Claim theorems: the compiler status machine -/

/-- C1 counterexample: a `connectToCompiler` run with `attempts = 0`
against an already-Ready compiler transport (the state reached when
the constructor's transport connected) skips the loop entirely and
publishes Connected as its only notification — a Connected with no
preceding Connecting in that cycle, refuting the claim for every run. -/
theorem claim_C1_counterexample :
    (connectToCompiler scenarioConnectedState (fun _ => true) 0).2 =
      [CompilerConnectionStatus.Connected] ∧
    CompilerConnectionStatus.Connecting ∉
      (connectToCompiler scenarioConnectedState (fun _ => true) 0).2 := by
  decide

/-- C1 amended: for runs with at least one attempt, every
`connectToCompiler` cycle publishes Connecting first (so no Connected
is observed without a preceding Connecting in that cycle); and when
the compiler transport reached Ready through a successful
`connectToCompiler` cycle and later closes, the installed persistent
disconnect listener publishes Disconnected directly — every
notification of the close is Disconnected, none is Connecting, and the
status ends Disconnected. -/
theorem claim_C1_amended (s : CState) (env : Nat → Bool) (a : Nat) (h : 1 ≤ a) :
    (connectToCompiler s env a).2.head? = some CompilerConnectionStatus.Connecting ∧
    ConnectedPrecededByConnecting (connectToCompiler s env a).2 ∧
    ((connectToCompiler s env a).1.compiler.status = TStatus.ready →
      ¬ (compilerDisconnectEvent (connectToCompiler s env a).1).2 = [] ∧
      (∀ v ∈ (compilerDisconnectEvent (connectToCompiler s env a).1).2,
        v = CompilerConnectionStatus.Disconnected) ∧
      (compilerDisconnectEvent (connectToCompiler s env a).1).1.status =
        CompilerConnectionStatus.Disconnected) := by
  obtain ⟨n, rfl⟩ : ∃ n, a = n + 1 := ⟨a - 1, by omega⟩
  obtain ⟨t, ht⟩ := connectToCompiler_events_cons s env n
  refine ⟨by rw [ht]; rfl, by rw [ht]; exact connectedPreceded_cons t, ?_⟩
  intro hr
  have hd := connectToCompiler_ready_disc s env (n + 1) hr
  have hm : 1 ≤ ((connectToCompiler s env (n + 1)).1.discHandlersOn.count
      (connectToCompiler s env (n + 1)).1.compiler.id) := by
    rw [hd]
    simp
  refine ⟨?_, ?_, ?_⟩
  · simp only [compilerDisconnectEvent, ne_eq, List.replicate_eq_nil_iff]
    omega
  · intro v hv
    simp only [compilerDisconnectEvent, List.mem_replicate] at hv
    exact hv.2
  · simp only [compilerDisconnectEvent]
    rw [if_neg]
    omega

/-- C1 amended witness: the amended claim instantiated at the
post-activation Disconnected state, an environment that always lets
the transport connect, and one attempt. -/
theorem claim_C1_amended_witness :
    1 ≤ 1 ∧
    ((connectToCompiler scenarioDeadState (fun _ => true) 1).2.head? =
        some CompilerConnectionStatus.Connecting ∧
      ConnectedPrecededByConnecting (connectToCompiler scenarioDeadState (fun _ => true) 1).2 ∧
      ((connectToCompiler scenarioDeadState (fun _ => true) 1).1.compiler.status = TStatus.ready →
        ¬ (compilerDisconnectEvent (connectToCompiler scenarioDeadState (fun _ => true) 1).1).2 = [] ∧
        (∀ v ∈ (compilerDisconnectEvent
            (connectToCompiler scenarioDeadState (fun _ => true) 1).1).2,
          v = CompilerConnectionStatus.Disconnected) ∧
        (compilerDisconnectEvent
            (connectToCompiler scenarioDeadState (fun _ => true) 1).1).1.status =
          CompilerConnectionStatus.Disconnected)) :=
  ⟨Nat.le_refl 1, claim_C1_amended scenarioDeadState (fun _ => true) 1 (Nat.le_refl 1)⟩

/-- With a Closed compiler transport, no constructor pair and no
persistent disconnect listeners, a `connectToCompiler` loop whose
environment never lets the recreated transport connect fires exactly
one Connecting per iteration and preserves that state shape. -/
theorem connectToCompilerLoop_all_fail :
    ∀ (n i : Nat) (s : CState),
      s.compiler.status = TStatus.closed → s.ctorOn = none → s.discHandlersOn = [] →
      (connectToCompilerLoop (fun _ => false) i n s).2 =
        List.replicate n CompilerConnectionStatus.Connecting ∧
      (connectToCompilerLoop (fun _ => false) i n s).1.compiler.status = TStatus.closed ∧
      (connectToCompilerLoop (fun _ => false) i n s).1.ctorOn = none ∧
      (connectToCompilerLoop (fun _ => false) i n s).1.discHandlersOn = [] := by
  intro n
  induction n with
  | zero =>
    intro i s h1 h2 h3
    exact ⟨rfl, h1, h2, h3⟩
  | succ n ih =>
    intro i s h1 h2 h3
    rw [connectToCompilerLoop]
    have haw : compilerAwait (updateCompilerConnectionStatus s
        CompilerConnectionStatus.Connecting).1 false =
        ({ compiler := ⟨s.nextId, TStatus.closed⟩,
           nextId := s.nextId + 1,
           status := CompilerConnectionStatus.Connecting,
           ctorOn := none,
           discHandlersOn := [] }, []) := by
      simp [compilerAwait, updateCompilerConnectionStatus, h1, h2, h3]
    rw [haw]
    have hrec := ih (i + 1) ⟨⟨s.nextId, TStatus.closed⟩, s.nextId + 1,
      CompilerConnectionStatus.Connecting, none, []⟩ rfl rfl rfl
    simp only [updateCompilerConnectionStatus]
    rw [if_neg (by decide)]
    refine ⟨?_, hrec.2.1, hrec.2.2.1, hrec.2.2.2⟩
    rw [hrec.1, List.replicate_succ]
    rfl

/-- C10: every `_updateCompilerConnectionStatus` call fires exactly
one status-changed notification carrying the new value — also when
the new value equals the current one (there is no equality guard);
and a `connectToCompiler` run that never manages to connect fires one
Connecting at the start of every attempt, so with two or more attempts
adjacent notifications carry identical values. -/
theorem claim_C10_every_update_fires (s : CState) (n : Nat)
    (hc : s.compiler.status = TStatus.closed) (hct : s.ctorOn = none)
    (hd : s.discHandlersOn = []) :
    (∀ (s2 : CState) (v : CompilerConnectionStatus),
      (updateCompilerConnectionStatus s2 v).2 = [v] ∧
      (updateCompilerConnectionStatus s2 s2.status).2 = [s2.status]) ∧
    (connectToCompiler s (fun _ => false) n).2 =
      List.replicate n CompilerConnectionStatus.Connecting ++
        [CompilerConnectionStatus.Disconnected] ∧
    (2 ≤ n →
      (connectToCompiler s (fun _ => false) n).2.get? 0 =
        (connectToCompiler s (fun _ => false) n).2.get? 1 ∧
      (connectToCompiler s (fun _ => false) n).2.get? 0 =
        some CompilerConnectionStatus.Connecting) := by
  have hl := connectToCompilerLoop_all_fail n 0 s hc hct hd
  have hform : (connectToCompiler s (fun _ => false) n).2 =
      List.replicate n CompilerConnectionStatus.Connecting ++
        [CompilerConnectionStatus.Disconnected] := by
    simp only [connectToCompiler, updateCompilerConnectionStatus]
    rw [if_neg (by rw [hl.2.1]; decide)]
    rw [hl.1]
  refine ⟨fun s2 v => ⟨rfl, rfl⟩, hform, ?_⟩
  intro h2
  obtain ⟨m, rfl⟩ : ∃ m, n = m + 2 := ⟨n - 2, by omega⟩
  rw [hform]
  constructor <;> simp [List.replicate_succ]

/-- C10 witness: the claim instantiated at the post-activation
Disconnected state with two attempts; the run fires Connecting,
Connecting, Disconnected — two adjacent identical notifications. -/
theorem claim_C10_every_update_fires_witness :
    (scenarioDeadState.compiler.status = TStatus.closed ∧
      scenarioDeadState.ctorOn = none ∧
      scenarioDeadState.discHandlersOn = []) ∧
    ((∀ (s2 : CState) (v : CompilerConnectionStatus),
      (updateCompilerConnectionStatus s2 v).2 = [v] ∧
      (updateCompilerConnectionStatus s2 s2.status).2 = [s2.status]) ∧
    (connectToCompiler scenarioDeadState (fun _ => false) 2).2 =
      List.replicate 2 CompilerConnectionStatus.Connecting ++
        [CompilerConnectionStatus.Disconnected] ∧
    (2 ≤ 2 →
      (connectToCompiler scenarioDeadState (fun _ => false) 2).2.get? 0 =
        (connectToCompiler scenarioDeadState (fun _ => false) 2).2.get? 1 ∧
      (connectToCompiler scenarioDeadState (fun _ => false) 2).2.get? 0 =
        some CompilerConnectionStatus.Connecting)) :=
  ⟨⟨rfl, rfl, rfl⟩,
    claim_C10_every_update_fires scenarioDeadState 2 rfl rfl rfl⟩

/-- The `connectToCompiler` loop fires at most one Connecting per
remaining attempt. -/
theorem connectToCompilerLoop_count_le (env : Nat → Bool) :
    ∀ (n i : Nat) (s : CState),
      (connectToCompilerLoop env i n s).2.count CompilerConnectionStatus.Connecting ≤ n := by
  intro n
  induction n with
  | zero => intro i s; simp [connectToCompilerLoop]
  | succ n ih =>
    intro i s
    rw [connectToCompilerLoop]
    have h2 := List.count_eq_zero.mpr
      (compilerAwait_no_Connecting
        (updateCompilerConnectionStatus s CompilerConnectionStatus.Connecting).1 (env i))
    have hone : List.count CompilerConnectionStatus.Connecting
        (updateCompilerConnectionStatus s CompilerConnectionStatus.Connecting).2 = 1 := rfl
    split
    · rw [List.count_append, h2, hone]
      omega
    · have h3 := ih (i + 1)
        (compilerAwait (updateCompilerConnectionStatus s
          CompilerConnectionStatus.Connecting).1 (env i)).1
      rw [List.count_append, List.count_append, h2, hone]
      omega

/-- A full `connectToCompiler` run fires at most one Connecting per
attempt: its post-loop notification is Connected or Disconnected. -/
theorem connectToCompiler_count_le (s : CState) (env : Nat → Bool) (a : Nat) :
    (connectToCompiler s env a).2.count CompilerConnectionStatus.Connecting ≤ a := by
  have hl := connectToCompilerLoop_count_le env a 0 s
  simp only [connectToCompiler, updateCompilerConnectionStatus]
  split <;> simp [List.count_append] <;> omega

/-- The spawn-poll loop runs at most as many iterations as its
remaining budget. -/
theorem pollLoopIters_le (env : Nat → PollOutcome) :
    ∀ (n i : Nat), pollLoopIters env i n ≤ n := by
  intro n
  induction n with
  | zero => intro i; simp [pollLoopIters]
  | succ n ih =>
    intro i
    rw [pollLoopIters]
    cases henv : env i with
    | ready => simp [henv]
    | exited c =>
      show 1 + (if c ≠ 0 then 0 else pollLoopIters env (i + 1) n) ≤ n + 1
      have := ih (i + 1)
      split <;> omega
    | running =>
      show 1 + pollLoopIters env (i + 1) n ≤ n + 1
      have := ih (i + 1)
      omega

/-- C3 counterexample: the `keepConnecting` loop of src/extension.ts
is a retry loop with no attempt ceiling — when the process-wide
shutdown flag is never set, no bound N caps the iterations it
performs. -/
theorem claim_C3_counterexample :
    ¬ ∃ N : Nat, ∀ n : Nat, keepConnectingIterates (fun _ => false) n = true → n ≤ N := by
  rintro ⟨N, h⟩
  have h2 : keepConnectingIterates (fun _ => false) (N + 1) = true := by
    simp [keepConnectingIterates]
  have := h (N + 1) h2
  omega

/-- C3 amended: `connectToCompiler` performs at most `attempts`
iterations (it fires exactly one Connecting per executed iteration)
and the Supervisor's spawn-poll loop performs at most 20; the game
scan loop `keepConnecting`, however, has no attempt ceiling — it runs
its n-th iteration exactly when the shutdown flag was still unset at
every guard check up to n, so it is unbounded while the flag stays
unset. -/
theorem claim_C3_amended (s : CState) (env : Nat → Bool) (attemptCount : Nat)
    (pollEnv : Nat → PollOutcome) (closedFlag : Nat → Bool) (n : Nat) :
    (connectToCompiler s env attemptCount).2.count CompilerConnectionStatus.Connecting ≤
      attemptCount ∧
    supervisorPollIters pollEnv ≤ 20 ∧
    (keepConnectingIterates closedFlag n = true ↔ ∀ i, i ≤ n → closedFlag i = false) := by
  refine ⟨connectToCompiler_count_le s env attemptCount, pollLoopIters_le pollEnv 20 0, ?_⟩
  simp [keepConnectingIterates, List.all_eq_true, Nat.lt_succ_iff]

/-- C2: the Supervisor scenario fails on the code.  After activation
with no compiler reachable, the constructor's transport to port 14032
is refused and Closed, and `getCompiler` — which `compilerConnector`
uses for every poll — returns that Closed transport unchanged, whose
connect/disconnect events can never fire again, so the awaited
`compilerConnector` promise can never resolve: the spawn-poll loop is
stuck before its first iteration completes and the status stays
Disconnected, never Connected.  Moreover, even on the path where the
constructor's transport does connect (status Connected via the
one-shot listener pair, which then removes itself), a later external
kill fires no status notification at all and the status remains
Connected instead of becoming Disconnected. -/
theorem claim_C2_supervisor_stuck :
    getCompiler scenarioDeadState = scenarioDeadState.compiler ∧
    scenarioDeadState.compiler.status = TStatus.closed ∧
    transportCanFire (getCompiler scenarioDeadState).status = false ∧
    compilerConnectorResolves (getCompiler scenarioDeadState) = false ∧
    scenarioDeadState.status = CompilerConnectionStatus.Disconnected ∧
    scenarioConnectedState.status = CompilerConnectionStatus.Connected ∧
    (compilerDisconnectEvent scenarioConnectedState).2 = [] ∧
    (compilerDisconnectEvent scenarioConnectedState).1.status =
      CompilerConnectionStatus.Connected := by
  refine ⟨rfl, by decide, by decide, by decide, by decide, by decide, by decide, by decide⟩

/-- C5 counterexample: with an empty identify cache and no response
before the timeout, `identify` resolves with `undefined` — the
`.then` handler that stores the timeout value in the cache returns
nothing, so the chained promise does not resolve with `null` as
claimed. -/
theorem claim_C5_counterexample :
    (identify ⟨none, [], 0⟩ none).1 = JsVal.undef ∧
    ¬ (identify ⟨none, [], 0⟩ none).1 = JsVal.nullv := by
  decide

/-- C5 amended: with no cached identify info and no response within
the 5000 ms timeout, `identify` resolves with `undefined` (the
internal timeout value `null` is stored in the identify cache but the
then-handler returns no value); the call's data listener is removed
from the connection, leaving the listener list as before; and a
second `identify` call made afterwards registers a fresh listener
(distinct from the first call's), again leaking nothing.  The
freshness hypothesis states that listener ids already on the
connection are older than the next allocated one. -/
theorem claim_C5_amended (s : IdentifyState) (h0 : s.cache = none)
    (hf : ∀ x ∈ s.listeners, x < s.nextListener) :
    (identify s none).1 = JsVal.undef ∧
    (identify s none).2.1 = some s.nextListener ∧
    (identify s none).2.2.listeners = s.listeners ∧
    (identify s none).2.2.cache = some JsVal.nullv ∧
    (identify (identify s none).2.2 none).2.1 = some (s.nextListener + 1) ∧
    ¬ (identify (identify s none).2.2 none).2.1 = (identify s none).2.1 ∧
    (identify (identify s none).2.2 none).2.2.listeners = s.listeners := by
  have hl : s.nextListener ∉ s.listeners := fun hmem => by
    have := hf _ hmem
    omega
  have hl1 : s.nextListener + 1 ∉ s.listeners := fun hmem => by
    have := hf _ hmem
    omega
  have herase : ∀ (L : List Nat) (a : Nat), a ∉ L → (L ++ [a]).erase a = L := by
    intro L a ha
    rw [List.erase_append_right _ ha, List.erase_cons_head, List.append_nil]
  simp only [identify, h0, runIdentify, herase s.listeners s.nextListener hl, truthy,
    herase s.listeners (s.nextListener + 1) hl1]
  simp

/-- C5 amended witness: concrete instance with empty cache, no
listeners and listener allocator at 0. -/
theorem claim_C5_amended_witness :
    ((⟨none, [], 0⟩ : IdentifyState).cache = none ∧
      (∀ x ∈ (⟨none, [], 0⟩ : IdentifyState).listeners,
        x < (⟨none, [], 0⟩ : IdentifyState).nextListener)) ∧
    ((identify ⟨none, [], 0⟩ none).1 = JsVal.undef ∧
      (identify ⟨none, [], 0⟩ none).2.1 = some (⟨none, [], 0⟩ : IdentifyState).nextListener ∧
      (identify ⟨none, [], 0⟩ none).2.2.listeners = (⟨none, [], 0⟩ : IdentifyState).listeners ∧
      (identify ⟨none, [], 0⟩ none).2.2.cache = some JsVal.nullv ∧
      (identify (identify ⟨none, [], 0⟩ none).2.2 none).2.1 =
        some ((⟨none, [], 0⟩ : IdentifyState).nextListener + 1) ∧
      ¬ (identify (identify ⟨none, [], 0⟩ none).2.2 none).2.1 =
        (identify ⟨none, [], 0⟩ none).2.1 ∧
      (identify (identify ⟨none, [], 0⟩ none).2.2 none).2.2.listeners =
        (⟨none, [], 0⟩ : IdentifyState).listeners) :=
  ⟨⟨rfl, by decide⟩, claim_C5_amended ⟨none, [], 0⟩ rfl (by decide)⟩
